import Mathlib

/-!
Shallow embedding of `src/main.py` (a Flask service that serves the rows of a
`pets` table as JSON, with credentials resolved from Secret Manager and a
SQLAlchemy connection pool built lazily before the first request).

External collaborators (the secret-store client, UTF-8 decoding, the pool
constructor, the database itself) are modelled as oracle functions supplied in
an `Env` / `Database` record; the control flow of `init_connection_engine`,
`create_connection` and `get_pets` is translated from the source.  Observable
interactions with the external collaborators are recorded in event traces so
that claims about which calls are made can be stated.
-/

/-- Error kinds that external calls can raise (the spec taxonomy). -/
inductive Err
  | secretAccess (name : String)
  | decodeError
  | poolConstruction
  | queryExecution
  | indexError
  deriving DecidableEq, Repr

/-- A database value as seen in a result row (positional column access). -/
inductive DbValue
  | int (n : Int)
  | str (s : String)
  | null
  deriving DecidableEq, Repr

instance : Inhabited DbValue := ⟨DbValue.null⟩

/-- A result row: the list of column values, accessed positionally. -/
abbrev Row : Type := List DbValue

/-- JSON values, the codomain of `jsonify`. -/
inductive JValue
  | int (n : Int)
  | str (s : String)
  | null
  | arr (xs : List JValue)
  | obj (fields : List (String × JValue))
  deriving Repr

/-- Serialization of a database value into JSON, as jsonify performs it. -/
def dbToJson : DbValue → JValue
  | .int n => JValue.int n
  | .str s => JValue.str s
  | .null => JValue.null

mutual

/-- Minimal JSON rendering, enough to state the body of an empty response. -/
def jsonRender : JValue → String
  | .int n => toString n
  | .str s => "\"" ++ s ++ "\""
  | .null => "null"
  | .arr xs => "[" ++ String.intercalate "," (jsonRenderList xs) ++ "]"
  | .obj fs => "\x7b" ++ String.intercalate "," (jsonRenderFields fs) ++ "\x7d"

/-- Rendering of the elements of a JSON array. -/
def jsonRenderList : List JValue → List String
  | [] => []
  | x :: xs => jsonRender x :: jsonRenderList xs

/-- Rendering of the fields of a JSON object. -/
def jsonRenderFields : List (String × JValue) → List String
  | [] => []
  | (k, v) :: fs => ("\"" ++ k ++ "\":" ++ jsonRender v) :: jsonRenderFields fs

end

/-- The payload carried by a secret-version access response. -/
structure Payload where
  data : List Nat
  deriving DecidableEq, Repr

/-- The response of `client.access_secret_version`. -/
structure AccessResponse where
  payload : Payload
  deriving DecidableEq, Repr

/-- The keyword arguments `main.py` passes to `sqlalchemy.engine.url.URL`. -/
structure URLRec where
  drivername : String
  username : String
  password : String
  database : String
  query : List (String × String)
  deriving DecidableEq, Repr

/-- The keyword arguments in `db_config` passed to `sqlalchemy.create_engine`. -/
structure DbConfig where
  pool_size : Nat
  max_overflow : Nat
  pool_timeout : Nat
  pool_recycle : Nat
  deriving DecidableEq, Repr

/-- The pool returned by `sqlalchemy.create_engine`, characterised by the
arguments it was constructed from (the constructor itself is external). -/
structure Pool where
  url : URLRec
  config : DbConfig
  deriving DecidableEq, Repr

/-- Observable calls made during `init_connection_engine`. -/
inductive Event
  | secretRequest (name : String)
  | decodeCall (data : List Nat)
  | engineCreate (url : URLRec) (config : DbConfig)
  deriving DecidableEq, Repr

/-- The ambient environment: project id from `google.auth.default()` and the
behaviour of the external collaborators called by `init_connection_engine`. -/
structure Env where
  projectId : String
  access_secret_version : String → Except Err AccessResponse
  utf8Decode : List Nat → Except Err String
  create_engine : URLRec → DbConfig → Option Err

/-- Resource name of a secret version, the f-string pattern of `main.py`. -/
def secretName (pid key : String) : String :=
  "projects/" ++ pid ++ "/secrets/" ++ key ++ "/versions/latest"

/-- The fixed `db_config` dictionary of `main.py`. -/
def db_config : DbConfig :=
  { pool_size := 5, max_overflow := 2, pool_timeout := 30, pool_recycle := 1800 }

/-- The call `sqlalchemy.create_engine(url, **db_config)`: the external
constructor either raises or yields the pool characterised by its
arguments. -/
def engineResult (env : Env) (url : URLRec) : Except Err Pool :=
  match env.create_engine url db_config with
  | some e => .error e
  | none => .ok { url := url, config := db_config }

/-- Embedding of `init_connection_engine`: four secret accesses, four UTF-8
decodes, then `create_engine` on the assembled URL and `db_config`.  Any
failure short-circuits (the Python exception propagates).  The second
component records the external calls made. -/
def init_connection_engine (env : Env) : Except Err Pool × List Event :=
  let db_user_secret := secretName env.projectId "db_user_secret"
  let db_password_secret := secretName env.projectId "db_password_secret"
  let db_name_secret := secretName env.projectId "db_name_secret"
  let cloud_sql_conn_name_secret := secretName env.projectId "cloud_sql_connection_name_secret"
  let t1 := [Event.secretRequest db_user_secret]
  match env.access_secret_version db_user_secret with
  | .error e => (.error e, t1)
  | .ok db_user_response =>
  let t2 := t1 ++ [Event.secretRequest db_password_secret]
  match env.access_secret_version db_password_secret with
  | .error e => (.error e, t2)
  | .ok db_password_response =>
  let t3 := t2 ++ [Event.secretRequest db_name_secret]
  match env.access_secret_version db_name_secret with
  | .error e => (.error e, t3)
  | .ok db_name_response =>
  let t4 := t3 ++ [Event.secretRequest cloud_sql_conn_name_secret]
  match env.access_secret_version cloud_sql_conn_name_secret with
  | .error e => (.error e, t4)
  | .ok cloud_sql_conn_name_response =>
  let t5 := t4 ++ [Event.decodeCall db_user_response.payload.data]
  match env.utf8Decode db_user_response.payload.data with
  | .error e => (.error e, t5)
  | .ok db_user =>
  let t6 := t5 ++ [Event.decodeCall db_password_response.payload.data]
  match env.utf8Decode db_password_response.payload.data with
  | .error e => (.error e, t6)
  | .ok db_pass =>
  let t7 := t6 ++ [Event.decodeCall db_name_response.payload.data]
  match env.utf8Decode db_name_response.payload.data with
  | .error e => (.error e, t7)
  | .ok db_name =>
  let db_socket_dir := "/cloudsql"
  let t8 := t7 ++ [Event.decodeCall cloud_sql_conn_name_response.payload.data]
  match env.utf8Decode cloud_sql_conn_name_response.payload.data with
  | .error e => (.error e, t8)
  | .ok cloud_sql_connection_name =>
  let url : URLRec :=
    { drivername := "mysql+pymysql"
      username := db_user
      password := db_pass
      database := db_name
      query := [("unix_socket", db_socket_dir ++ "/" ++ cloud_sql_connection_name)] }
  let t9 := t8 ++ [Event.engineCreate url db_config]
  (engineResult env url, t9)

/-- The process-wide mutable state: the global variable `db`. -/
structure AppState where
  db : Option Pool
  deriving DecidableEq, Repr

/-- Embedding of `create_connection` (the before-first-request hook):
`db = init_connection_engine()`.  On failure the exception propagates and the
global is left untouched; on success the pool is stored. -/
def create_connection (env : Env) (st : AppState) : AppState × Except Err Pool :=
  match (init_connection_engine env).1 with
  | .error e => (st, .error e)
  | .ok pool => ({ db := some pool }, .ok pool)

/-- The incoming HTTP request (never read by `get_pets`). -/
structure HttpRequest where
  queryParams : List (String × String)
  headers : List (String × String)
  body : String
  deriving DecidableEq, Repr

/-- Observable database operations performed by the request handler. -/
inductive DbEvent
  | acquire
  | executeStmt (q : String)
  | release
  deriving DecidableEq, Repr

/-- The runtime behaviour of the pool as seen by `get_pets`: whether
`db.connect()` succeeds, and what `conn.execute(q).fetchall()` returns. -/
structure Database where
  connect : Except Err Unit
  execute : String → Except Err (List Row)

/-- The fixed query string of `get_pets`. -/
def pets_query : String := "SELECT id, name from pets;"

/-- The per-row loop body of `get_pets`: positional access `row[0]`, `row[1]`
(raising on a too-short row, as Python would) and the dict literal appended to
`pets`. -/
def buildPets : List Row → Except Err (List JValue)
  | [] => .ok []
  | row :: rest =>
    match List.get? row 0, List.get? row 1 with
    | some v0, some v1 =>
      match buildPets rest with
      | .ok tail => .ok (JValue.obj [("id", dbToJson v0), ("name", dbToJson v1)] :: tail)
      | .error e => .error e
    | _, _ => .error Err.indexError

/-- The JSON object built for one (sufficiently long) row. -/
def rowToPet (r : Row) : JValue :=
  JValue.obj [("id", dbToJson (List.getD r 0 DbValue.null)),
              ("name", dbToJson (List.getD r 1 DbValue.null))]

/-- Embedding of `get_pets`: scoped connection acquisition (`with db.connect()
as conn`), one execution of the fixed query, the row loop, and the
`(jsonify(pets), 200)` response.  The second component is the trace of pool
operations: if `connect` itself fails nothing was acquired; once acquired, the
connection is released on every exit path of the `with` block. -/
def get_pets (_req : HttpRequest) (db : Database) :
    Except Err (JValue × Nat) × List DbEvent :=
  match db.connect with
  | .error e => (.error e, [])
  | .ok _ =>
    match db.execute pets_query with
    | .error e =>
        (.error e, [DbEvent.acquire, DbEvent.executeStmt pets_query, DbEvent.release])
    | .ok pets_result =>
        (match buildPets pets_result with
         | .error e => .error e
         | .ok pets => .ok (JValue.arr pets, 200),
         [DbEvent.acquire, DbEvent.executeStmt pets_query, DbEvent.release])

/-- Modelled from the spec: the framework default error handler (not part of
`src/`) turns an uncaught exception propagating out of the handler or the
before-first-request hook into a server-error response (non-2xx, specified as
500), never into a 200 with data. -/
def serve : Except Err (JValue × Nat) → JValue × Nat
  | .ok r => r
  | .error _ => (JValue.str "Internal Server Error", 500)

/-- One request through the framework: on the first request (global `db` not
yet set) the hook `create_connection` runs first; any uncaught error yields
the framework error response.  `mkDb` gives the runtime behaviour of the
constructed pool. -/
def handle_request (env : Env) (mkDb : Pool → Database) (st : AppState)
    (req : HttpRequest) : AppState × (JValue × Nat) :=
  match st.db with
  | some pool => (st, serve (get_pets req (mkDb pool)).1)
  | none =>
    match create_connection env st with
    | (st1, .error e) => (st1, serve (.error e))
    | (st1, .ok pool) => (st1, serve (get_pets req (mkDb pool)).1)

/-- Name of a secret-request event, if it is one. -/
def Event.secretName? : Event → Option String
  | .secretRequest n => some n
  | _ => none

/-- Bytes passed to UTF-8 decoding, if the event is a decode call. -/
def Event.decodedData? : Event → Option (List Nat)
  | .decodeCall d => some d
  | _ => none

/-- Statement text of an execute event, if it is one. -/
def DbEvent.stmt? : DbEvent → Option String
  | .executeStmt q => some q
  | _ => none

/-! Concrete fixtures used by the witness theorems. -/

/-- A request with no parameters. -/
def wReq : HttpRequest := { queryParams := [], headers := [], body := "" }

/-- A request carrying parameters, headers and a body. -/
def wReq2 : HttpRequest :=
  { queryParams := [("debug", "1")], headers := [("X-Test", "y")], body := "ignored" }

/-- A sample result set for the pets table. -/
def wRows : List Row :=
  [[DbValue.int 1, DbValue.str "Rex"], [DbValue.int 2, DbValue.str "Whiskers"]]

/-- A database whose query succeeds with `wRows`. -/
def wDbOk : Database := { connect := .ok (), execute := fun _ => .ok wRows }

/-- A database whose query raises. -/
def wDbQueryFail : Database :=
  { connect := .ok (), execute := fun _ => .error Err.queryExecution }

/-- An environment in which every external call succeeds. -/
def wEnvOk : Env :=
  { projectId := "demo"
    access_secret_version := fun _ => .ok { payload := { data := [104, 105] } }
    utf8Decode := fun _ => .ok "v"
    create_engine := fun _ _ => none }

/-- An environment in which every secret access raises. -/
def wEnvSecretFail : Env :=
  { projectId := "demo"
    access_secret_version := fun _ => .error (Err.secretAccess "boom")
    utf8Decode := fun _ => .ok "v"
    create_engine := fun _ _ => none }

/-- The pool constructed under `wEnvOk`. -/
def wPool : Pool :=
  { url := { drivername := "mysql+pymysql", username := "v", password := "v",
             database := "v", query := [("unix_socket", "/cloudsql/v")] },
    config := db_config }

/-- Pool behaviour for `handle_request` fixtures: queries succeed. -/
def wMkDb : Pool → Database := fun _ => wDbOk

/-! Helper lemmas. -/

/-- On rows of width at least two, the row loop of `get_pets` succeeds and
produces exactly the id/name object of each row, in order. -/
theorem buildPets_eq_map (rows : List Row) (hw : ∀ r ∈ rows, 2 ≤ List.length r) :
    buildPets rows = .ok (rows.map rowToPet) := by
  induction rows with
  | nil => rfl
  | cons r rest ih =>
    have hr : 2 ≤ List.length r := hw r (List.mem_cons_self _ _)
    match r, hr with
    | v0 :: v1 :: t, _ =>
      have ih2 := ih (fun x hx => hw x (List.mem_cons_of_mem _ hx))
      simp [buildPets, ih2, rowToPet]

/-- When the four accesses and four decodes succeed, `init_connection_engine`
reaches `create_engine` with the assembled URL, having made exactly the
recorded external calls. -/
theorem init_success_shape (env : Env) (r1 r2 r3 r4 : AccessResponse)
    (u p n c : String)
    (h1 : env.access_secret_version (secretName env.projectId "db_user_secret") = .ok r1)
    (h2 : env.access_secret_version (secretName env.projectId "db_password_secret") = .ok r2)
    (h3 : env.access_secret_version (secretName env.projectId "db_name_secret") = .ok r3)
    (h4 : env.access_secret_version
        (secretName env.projectId "cloud_sql_connection_name_secret") = .ok r4)
    (d1 : env.utf8Decode r1.payload.data = .ok u)
    (d2 : env.utf8Decode r2.payload.data = .ok p)
    (d3 : env.utf8Decode r3.payload.data = .ok n)
    (d4 : env.utf8Decode r4.payload.data = .ok c) :
    init_connection_engine env =
      (engineResult env
        { drivername := "mysql+pymysql", username := u, password := p, database := n,
          query := [("unix_socket", "/cloudsql" ++ "/" ++ c)] },
       [Event.secretRequest (secretName env.projectId "db_user_secret"),
        Event.secretRequest (secretName env.projectId "db_password_secret"),
        Event.secretRequest (secretName env.projectId "db_name_secret"),
        Event.secretRequest (secretName env.projectId "cloud_sql_connection_name_secret"),
        Event.decodeCall r1.payload.data,
        Event.decodeCall r2.payload.data,
        Event.decodeCall r3.payload.data,
        Event.decodeCall r4.payload.data,
        Event.engineCreate
          { drivername := "mysql+pymysql", username := u, password := p, database := n,
            query := [("unix_socket", "/cloudsql" ++ "/" ++ c)] }
          db_config]) := by
  simp [init_connection_engine, h1, h2, h3, h4, d1, d2, d3, d4]

/-! Claim theorems. -/

/-- C1: for every sequence of rows returned by the fixed query
`SELECT id, name from pets;`, `get_pets` returns status 200 with a JSON array
whose i-th element is the object with id `rows[i][0]` and name `rows[i][1]`,
preserving order; the array length equals the number of rows, and an empty
result set yields 200 with body `[]`. -/
theorem get_pets_rows_to_json (req : HttpRequest) (db : Database) (rows : List Row)
    (hc : db.connect = .ok ()) (he : db.execute pets_query = .ok rows)
    (hw : ∀ r ∈ rows, 2 ≤ List.length r) :
    (get_pets req db).1 = .ok (JValue.arr (rows.map rowToPet), 200)
    ∧ (rows.map rowToPet).length = rows.length
    ∧ (∀ i : Nat, List.get? (rows.map rowToPet) i = (List.get? rows i).map rowToPet)
    ∧ (rows = [] → (get_pets req db).1 = .ok (JValue.arr [], 200)
        ∧ jsonRender (JValue.arr []) = "[]") := by
  have hb := buildPets_eq_map rows hw
  refine ⟨?_, by simp, ?_, ?_⟩
  · simp [get_pets, hc, he, hb]
  · intro i
    exact List.get?_map rowToPet rows i
  · rintro rfl
    refine ⟨by simp [get_pets, hc, he, buildPets], ?_⟩
    simp only [jsonRender, jsonRenderList]
    rfl

/-- C1 witness: with a database returning the two sample rows, the handler
yields 200 and the two id/name objects in order. -/
theorem get_pets_rows_to_json_witness :
    (get_pets wReq wDbOk).1
      = .ok (JValue.arr [JValue.obj [("id", JValue.int 1), ("name", JValue.str "Rex")],
                         JValue.obj [("id", JValue.int 2), ("name", JValue.str "Whiskers")]],
             200) :=
  (get_pets_rows_to_json wReq wDbOk wRows rfl rfl (by decide)).1

/-- C5: when each returned row starts with an integer id column and a string
name column, every object of the response array has exactly the keys id and
name, with the integer and string of the corresponding row. -/
theorem get_pets_objects_exact_keys (req : HttpRequest) (db : Database)
    (rows : List Row)
    (hc : db.connect = .ok ()) (he : db.execute pets_query = .ok rows)
    (hty : ∀ r ∈ rows, ∃ n s t, r = DbValue.int n :: DbValue.str s :: t) :
    ∃ pets : List JValue,
      (get_pets req db).1 = .ok (JValue.arr pets, 200)
      ∧ pets.length = rows.length
      ∧ ∀ i row, List.get? rows i = some row →
          ∃ n s t, row = DbValue.int n :: DbValue.str s :: t
            ∧ List.get? pets i
              = some (JValue.obj [("id", JValue.int n), ("name", JValue.str s)]) := by
  have hw : ∀ r ∈ rows, 2 ≤ List.length r := by
    intro r hr
    obtain ⟨n, s, t, rfl⟩ := hty r hr
    simp
  have hb := buildPets_eq_map rows hw
  refine ⟨rows.map rowToPet, by simp [get_pets, hc, he, hb], by simp, ?_⟩
  intro i row hrow
  obtain ⟨n, s, t, hr⟩ := hty row (List.get?_mem hrow)
  refine ⟨n, s, t, hr, ?_⟩
  rw [List.get?_map, hrow, hr]
  simp [rowToPet, dbToJson]

/-- C5 witness: the sample rows produce exactly the id/name objects. -/
theorem get_pets_objects_exact_keys_witness :
    ∃ pets : List JValue,
      (get_pets wReq wDbOk).1 = .ok (JValue.arr pets, 200)
      ∧ pets.length = wRows.length
      ∧ ∀ i row, List.get? wRows i = some row →
          ∃ n s t, row = DbValue.int n :: DbValue.str s :: t
            ∧ List.get? pets i
              = some (JValue.obj [("id", JValue.int n), ("name", JValue.str s)]) :=
  get_pets_objects_exact_keys wReq wDbOk wRows rfl rfl (by
    intro r hr
    simp only [wRows, List.mem_cons, List.not_mem_nil, or_false] at hr
    rcases hr with rfl | rfl
    · exact ⟨1, "Rex", [], rfl⟩
    · exact ⟨2, "Whiskers", [], rfl⟩)

/-- C9: `get_pets` reads nothing from the HTTP request; if two invocations see
the same connect behaviour and the same rows for the fixed query, their entire
result (status, body and trace) is identical, whatever the requests were. -/
theorem get_pets_request_independent (r1 r2 : HttpRequest) (db1 db2 : Database)
    (hc : db1.connect = db2.connect)
    (he : db1.execute pets_query = db2.execute pets_query) :
    get_pets r1 db1 = get_pets r2 db2 := by
  unfold get_pets
  rw [hc, he]

/-- C9 witness: a request with parameters, headers and a body gets the same
response as the empty request. -/
theorem get_pets_request_independent_witness :
    get_pets wReq wDbOk = get_pets wReq2 wDbOk :=
  get_pets_request_independent wReq wReq2 wDbOk wDbOk rfl rfl

/-- C4: the connection is released on every exit path of `get_pets`: acquire
and release events always balance, an acquire is always followed by a release,
and on the query-failure path the trace is acquire, execute, release. -/
theorem get_pets_releases_connection (req : HttpRequest) (db : Database) :
    ((get_pets req db).2.count DbEvent.acquire
        = (get_pets req db).2.count DbEvent.release)
    ∧ (DbEvent.acquire ∈ (get_pets req db).2 → DbEvent.release ∈ (get_pets req db).2)
    ∧ (∀ e, db.connect = .ok () → db.execute pets_query = .error e →
        (get_pets req db).2
          = [DbEvent.acquire, DbEvent.executeStmt pets_query, DbEvent.release]) := by
  have htr : (get_pets req db).2 = []
      ∨ (get_pets req db).2
          = [DbEvent.acquire, DbEvent.executeStmt pets_query, DbEvent.release] := by
    cases hcn : db.connect with
    | error e => left; simp [get_pets, hcn]
    | ok u =>
      cases hex : db.execute pets_query with
      | error e => right; simp [get_pets, hcn, hex]
      | ok rows => right; simp [get_pets, hcn, hex]
  refine ⟨?_, ?_, ?_⟩
  · rcases htr with h | h <;> rw [h] <;> rfl
  · rcases htr with h | h <;> rw [h] <;> simp
  · intro e hok herr
    simp [get_pets, hok, herr]

/-- C4 witness: on a database whose query raises, the trace still ends with a
release after the acquire. -/
theorem get_pets_releases_connection_witness :
    (get_pets wReq wDbQueryFail).2
      = [DbEvent.acquire, DbEvent.executeStmt pets_query, DbEvent.release] :=
  (get_pets_releases_connection wReq wDbQueryFail).2.2 Err.queryExecution rfl rfl

/-- C10: every successful invocation of `get_pets` performs exactly one
acquire, one execution of the fixed query and one release, whatever the number
of returned rows. -/
theorem get_pets_single_operation (req : HttpRequest) (db : Database)
    (rows : List Row)
    (hc : db.connect = .ok ()) (he : db.execute pets_query = .ok rows) :
    (get_pets req db).2 = [DbEvent.acquire, DbEvent.executeStmt pets_query, DbEvent.release]
    ∧ (get_pets req db).2.count DbEvent.acquire = 1
    ∧ (get_pets req db).2.filterMap DbEvent.stmt? = [pets_query] := by
  have h2 : (get_pets req db).2
      = [DbEvent.acquire, DbEvent.executeStmt pets_query, DbEvent.release] := by
    simp [get_pets, hc, he]
  refine ⟨h2, ?_, ?_⟩ <;> rw [h2] <;> rfl

/-- C10 witness: the sample database produces the three-event trace with the
single fixed statement. -/
theorem get_pets_single_operation_witness :
    (get_pets wReq wDbOk).2
      = [DbEvent.acquire, DbEvent.executeStmt pets_query, DbEvent.release] :=
  (get_pets_single_operation wReq wDbOk wRows rfl rfl).1

/-- C6: `init_connection_engine` constructs the pool with exactly
pool_size 5, max_overflow 2, pool_timeout 30 and pool_recycle 1800, using the
MySQL dialect over the Unix socket at socket_dir slash connection identifier,
with socket_dir fixed to /cloudsql. -/
theorem init_engine_fixed_config (env : Env) (r1 r2 r3 r4 : AccessResponse)
    (u p n c : String)
    (h1 : env.access_secret_version (secretName env.projectId "db_user_secret") = .ok r1)
    (h2 : env.access_secret_version (secretName env.projectId "db_password_secret") = .ok r2)
    (h3 : env.access_secret_version (secretName env.projectId "db_name_secret") = .ok r3)
    (h4 : env.access_secret_version
        (secretName env.projectId "cloud_sql_connection_name_secret") = .ok r4)
    (d1 : env.utf8Decode r1.payload.data = .ok u)
    (d2 : env.utf8Decode r2.payload.data = .ok p)
    (d3 : env.utf8Decode r3.payload.data = .ok n)
    (d4 : env.utf8Decode r4.payload.data = .ok c) :
    Event.engineCreate
        { drivername := "mysql+pymysql", username := u, password := p, database := n,
          query := [("unix_socket", "/cloudsql" ++ "/" ++ c)] }
        { pool_size := 5, max_overflow := 2, pool_timeout := 30, pool_recycle := 1800 }
      ∈ (init_connection_engine env).2
    ∧ (∀ pool, (init_connection_engine env).1 = .ok pool →
        pool = { url := { drivername := "mysql+pymysql", username := u, password := p,
                          database := n,
                          query := [("unix_socket", "/cloudsql" ++ "/" ++ c)] },
                 config := { pool_size := 5, max_overflow := 2, pool_timeout := 30,
                             pool_recycle := 1800 } }) := by
  rw [init_success_shape env r1 r2 r3 r4 u p n c h1 h2 h3 h4 d1 d2 d3 d4]
  constructor
  · simp [db_config]
  · intro pool hp
    unfold engineResult at hp
    split at hp
    · exact absurd hp (by simp)
    · cases hp
      rfl

/-- C6 witness: under the all-success environment, the engine-creation event
carries the fixed configuration and the /cloudsql socket path. -/
theorem init_engine_fixed_config_witness :
    Event.engineCreate
        { drivername := "mysql+pymysql", username := "v", password := "v", database := "v",
          query := [("unix_socket", "/cloudsql" ++ "/" ++ "v")] }
        { pool_size := 5, max_overflow := 2, pool_timeout := 30, pool_recycle := 1800 }
      ∈ (init_connection_engine wEnvOk).2 :=
  (init_engine_fixed_config wEnvOk
      { payload := { data := [104, 105] } } { payload := { data := [104, 105] } }
      { payload := { data := [104, 105] } } { payload := { data := [104, 105] } }
      "v" "v" "v" "v" rfl rfl rfl rfl rfl rfl rfl rfl).1

/-- C7: the secret resolver requests exactly the four fixed secret names
formed from the project id, and passes exactly the four resolved payloads to
UTF-8 decoding. -/
theorem secret_requests_exactly_four (env : Env) (r1 r2 r3 r4 : AccessResponse)
    (u p n c : String)
    (h1 : env.access_secret_version (secretName env.projectId "db_user_secret") = .ok r1)
    (h2 : env.access_secret_version (secretName env.projectId "db_password_secret") = .ok r2)
    (h3 : env.access_secret_version (secretName env.projectId "db_name_secret") = .ok r3)
    (h4 : env.access_secret_version
        (secretName env.projectId "cloud_sql_connection_name_secret") = .ok r4)
    (d1 : env.utf8Decode r1.payload.data = .ok u)
    (d2 : env.utf8Decode r2.payload.data = .ok p)
    (d3 : env.utf8Decode r3.payload.data = .ok n)
    (d4 : env.utf8Decode r4.payload.data = .ok c) :
    (init_connection_engine env).2.filterMap Event.secretName? =
      [secretName env.projectId "db_user_secret",
       secretName env.projectId "db_password_secret",
       secretName env.projectId "db_name_secret",
       secretName env.projectId "cloud_sql_connection_name_secret"]
    ∧ (init_connection_engine env).2.filterMap Event.decodedData? =
      [r1.payload.data, r2.payload.data, r3.payload.data, r4.payload.data] := by
  rw [init_success_shape env r1 r2 r3 r4 u p n c h1 h2 h3 h4 d1 d2 d3 d4]
  constructor <;> rfl

/-- C7 witness: under the all-success environment with project id demo, the
four requested resource names are exactly the fixed ones. -/
theorem secret_requests_exactly_four_witness :
    (init_connection_engine wEnvOk).2.filterMap Event.secretName? =
      ["projects/demo/secrets/db_user_secret/versions/latest",
       "projects/demo/secrets/db_password_secret/versions/latest",
       "projects/demo/secrets/db_name_secret/versions/latest",
       "projects/demo/secrets/cloud_sql_connection_name_secret/versions/latest"] :=
  (secret_requests_exactly_four wEnvOk
      { payload := { data := [104, 105] } } { payload := { data := [104, 105] } }
      { payload := { data := [104, 105] } } { payload := { data := [104, 105] } }
      "v" "v" "v" "v" rfl rfl rfl rfl rfl rfl rfl rfl).1

/-- C8: initialization is atomic with respect to the global `db`: if
`init_connection_engine` fails, `create_connection` leaves the state
untouched; if it succeeds, exactly the constructed pool is stored. -/
theorem create_connection_atomic (env : Env) (st : AppState) :
    (∀ e, (init_connection_engine env).1 = .error e →
        create_connection env st = (st, .error e)
        ∧ (create_connection env st).1.db = st.db)
    ∧ (∀ pool, (init_connection_engine env).1 = .ok pool →
        create_connection env st = ({ db := some pool }, .ok pool)) := by
  constructor
  · intro e he
    unfold create_connection
    rw [he]
    exact ⟨rfl, rfl⟩
  · intro pool hp
    unfold create_connection
    rw [hp]

/-- C8 witness: under the all-success environment the constructed pool is
stored in the global state. -/
theorem create_connection_atomic_witness :
    create_connection wEnvOk { db := none } = ({ db := some wPool }, .ok wPool) :=
  (create_connection_atomic wEnvOk { db := none }).2 wPool rfl

/-- C2: failures of secret resolution or pool construction propagate out of
`create_connection`, and query failures propagate out of `get_pets`; none is
caught or recovered, and the affected request gets the framework 500 response,
never a 200 with empty or default pet data. -/
theorem errors_propagate_uncaught (env : Env) (mkDb : Pool → Database)
    (req : HttpRequest) :
    (∀ e, (init_connection_engine env).1 = .error e →
        (create_connection env { db := none }).2 = .error e
        ∧ (handle_request env mkDb { db := none } req).2
            = (JValue.str "Internal Server Error", 500)
        ∧ (handle_request env mkDb { db := none } req).2.2 ≠ 200)
    ∧ (∀ pool e, (init_connection_engine env).1 = .ok pool →
        (mkDb pool).connect = .error e →
        (get_pets req (mkDb pool)).1 = .error e
        ∧ (handle_request env mkDb { db := none } req).2
            = (JValue.str "Internal Server Error", 500)
        ∧ (handle_request env mkDb { db := none } req).2.2 ≠ 200)
    ∧ (∀ pool e, (init_connection_engine env).1 = .ok pool →
        (mkDb pool).connect = .ok () →
        (mkDb pool).execute pets_query = .error e →
        (get_pets req (mkDb pool)).1 = .error e
        ∧ (handle_request env mkDb { db := none } req).2
            = (JValue.str "Internal Server Error", 500)
        ∧ (handle_request env mkDb { db := none } req).2.2 ≠ 200) := by
  refine ⟨?_, ?_, ?_⟩
  · intro e he
    have hcc : create_connection env { db := none } = ({ db := none }, .error e) := by
      unfold create_connection
      rw [he]
    refine ⟨by rw [hcc], ?_, ?_⟩ <;> simp [handle_request, hcc, serve]
  · intro pool e hp hc
    have hcc : create_connection env { db := none } = ({ db := some pool }, .ok pool) := by
      unfold create_connection
      rw [hp]
    have hg : (get_pets req (mkDb pool)).1 = .error e := by
      simp [get_pets, hc]
    refine ⟨hg, ?_, ?_⟩ <;> simp [handle_request, hcc, hg, serve]
  · intro pool e hp hc he
    have hcc : create_connection env { db := none } = ({ db := some pool }, .ok pool) := by
      unfold create_connection
      rw [hp]
    have hg : (get_pets req (mkDb pool)).1 = .error e := by
      simp [get_pets, hc, he]
    refine ⟨hg, ?_, ?_⟩ <;> simp [handle_request, hcc, hg, serve]

/-- C2 witness: when every secret access raises, the first request is answered
with the framework 500 response, not 200. -/
theorem errors_propagate_uncaught_witness :
    (handle_request wEnvSecretFail wMkDb { db := none } wReq).2.2 ≠ 200 :=
  ((errors_propagate_uncaught wEnvSecretFail wMkDb wReq).1
    (Err.secretAccess "boom") rfl).2.2
